import Mathlib

/-!
Verification of the decision core of the disaster prediction backend
(`BACKEND.py`): the risk-prediction dispatch (`predict_disaster` with its
helpers `prepare_earthquake_features`, `predict_earthquake`, `predict_flood`)
and the evacuation planner (`get_evacuation_route`).

Modelling conventions for the shallow embedding:
* Python floats are modelled as `ℚ`; Python ints as `ℤ` (capacities, window)
  or `ℕ` (identifiers, day indices).
* `datetime` values are abstracted to a day index `n : ℕ` counted from an
  arbitrary epoch; `datetime.now()` becomes a parameter `now : ℕ`, and
  `now + timedelta(days=i)` becomes `now + i`.
* External collaborators are passed in as function parameters:
  the Keras/sklearn models (`earthquake_model.predict`,
  `flood_model.predict_proba`), shapely polygon containment
  (`geometry.contains`), geopy's `great_circle(...).km`, and the
  `np.random.uniform` draws (an entropy stream indexed by the day being
  featurized).  The code treats all of these as black boxes; so do we.
* Python's `sorted` (a stable sort by a total preorder) is modelled by
  `List.mergeSort`, which Lean's standard library proves stable.
* A FastAPI handler that may `raise HTTPException` is modelled as a function
  into `Except String _`, the error message being the `detail` string.
-/

/-- `class Location(BaseModel)`: latitude/longitude pair (BACKEND.py:46-48). -/
structure Location where
  lat : ℚ
  lon : ℚ
deriving DecidableEq

/-- `class PredictionRequest(BaseModel)` (BACKEND.py:50-53).
`time_window` is a Python `int`, hence `ℤ` (callers may pass 0 or negatives). -/
structure PredictionRequest where
  location : Location
  disaster_type : String
  time_window : ℤ
deriving DecidableEq

/-- `class EvacuationRequest(BaseModel)` (BACKEND.py:55-58). -/
structure EvacuationRequest where
  start_point : Location
  disaster_type : String
  disaster_radius : ℚ
deriving DecidableEq

/-- One row of the `models.shelters` GeoDataFrame (used at BACKEND.py:152-160):
a point geometry plus `id` and `capacity` attributes. -/
structure ShelterRow where
  id : ℕ
  geometry : Location
  capacity : ℤ
deriving DecidableEq

/-- One row of the `models.regions` GeoDataFrame (used at BACKEND.py:109-116):
a polygon, abstracted to its shapely containment test, plus the three terrain
attributes read by `predict_flood`. -/
structure Region where
  containsPoint : Location → Bool
  elevation : ℚ
  river_dist : ℚ
  soil_moisture : ℚ

/-- One feature row built by `prepare_earthquake_features` (BACKEND.py:90-96):
`[location.lat, location.lon, day_of_year, simulated seismic, simulated depth]`. -/
structure EarthquakeFeatureRow where
  lat : ℚ
  lon : ℚ
  day_of_year : ℕ
  seismic : ℚ
  depth : ℚ
deriving DecidableEq

/-- The `DisasterModels` container (BACKEND.py:33-43), with the opaque model
artifacts abstracted to their `predict`-style contracts:
`earthquake_model` maps a feature sequence to a prediction sequence
(`model.predict(features)[0]`), `flood_model` maps the three terrain features
to the positive-class probability (`predict_proba(features)[0][1]`).
The unused `wildfire_model`/`hurricane_model`/`evacuation_routes` members are
irrelevant to every code path and omitted. -/
structure DisasterModels where
  earthquake_model : List EarthquakeFeatureRow → List ℚ
  flood_model : ℚ → ℚ → ℚ → ℚ
  regions : List Region
  shelters : List ShelterRow

/-- `date.timetuple().tm_yday` for a day index: day of year, in 1..365
(the abstract epoch calendar has 365-day years). -/
def dayOfYear (d : ℕ) : ℕ := d % 365 + 1

/-- `PredictionService.prepare_earthquake_features` (BACKEND.py:85-97).
`entropy date` supplies the two `np.random.uniform` draws made in the loop
iteration for `date` (simulated seismic activity and depth). -/
def prepare_earthquake_features (entropy : ℕ → ℚ × ℚ) (location : Location)
    (dates : List ℕ) : List EarthquakeFeatureRow :=
  dates.map fun date =>
    { lat := location.lat
      lon := location.lon
      day_of_year := dayOfYear date
      seismic := (entropy date).1
      depth := (entropy date).2 }

/-- `PredictionService.predict_earthquake` (BACKEND.py:100-103). -/
def predict_earthquake (models : DisasterModels) (entropy : ℕ → ℚ × ℚ)
    (location : Location) (dates : List ℕ) : List ℚ :=
  models.earthquake_model (prepare_earthquake_features entropy location dates)

/-- `PredictionService.predict_flood` (BACKEND.py:106-119).
The pandas boolean-mask selection keeps every containing region in dataset
order; `len(region) == 0` returns `0.0`, otherwise `region.iloc[0]` (the
first match) supplies the features. -/
def predict_flood (models : DisasterModels) (location : Location) : ℚ :=
  match models.regions.filter (fun r => r.containsPoint location) with
  | [] => 0
  | region :: _ => models.flood_model region.elevation region.river_dist region.soil_moisture

/-- The result value of the `/predict` endpoint: either the earthquake-shaped
time-series response (BACKEND.py:129-133, `risks` keeps the insertion order of
`dict(zip(dates, risks))`) or the flood-shaped scalar response
(BACKEND.py:137-141). -/
inductive RiskResult where
  | timeSeries (disaster : String) (risks : List (ℕ × ℚ)) (unit : String)
  | scalar (disaster : String) (risk : ℚ) (unit : String)
deriving DecidableEq

/-- The `/predict` endpoint `predict_disaster` (BACKEND.py:122-144).
`dates = [datetime.now() + timedelta(days=i) for i in range(time_window)]`;
`range` of a non-positive int is empty, hence `Int.toNat`. -/
def predict_disaster (models : DisasterModels) (entropy : ℕ → ℚ × ℚ) (now : ℕ)
    (request : PredictionRequest) : Except String RiskResult :=
  let dates := (List.range request.time_window.toNat).map (fun i => now + i)
  if request.disaster_type = "earthquake" then
    let risks := predict_earthquake models entropy request.location dates
    .ok (.timeSeries "earthquake" (dates.zip risks) "probability")
  else if request.disaster_type = "flood" then
    let risk := predict_flood models request.location
    .ok (.scalar "flood" risk "probability")
  else
    .error "Disaster type not supported"

/-- One entry of the `shelters` list built at BACKEND.py:156-161. -/
structure ShelterCandidate where
  id : ℕ
  location : Location
  distance_km : ℚ
  capacity : ℤ
deriving DecidableEq

/-- The `/evacuation` response body (BACKEND.py:168-172). -/
structure EvacuationPlan where
  recommended_shelter : ShelterCandidate
  alternative_shelters : List ShelterCandidate
  disaster_type : String
deriving DecidableEq

/-- The comparison underlying `sorted(shelters, key=lambda x:
(x['distance_km'], -x['capacity']))` (BACKEND.py:163): lexicographic order on
the key tuple, i.e. ascending distance, then descending capacity. -/
def shelterSortKeyLe (a b : ShelterCandidate) : Bool :=
  decide (a.distance_km < b.distance_km ∨
    (a.distance_km = b.distance_km ∧ -a.capacity ≤ -b.capacity))

/-- The filtering loop of `get_evacuation_route` (BACKEND.py:151-161): for each
shelter row compute the great-circle distance from the start point and keep it,
as a `ShelterCandidate`, exactly when that distance strictly exceeds the
disaster radius.  `dist` stands for `great_circle(a, b).km`. -/
def surviving_shelters (dist : Location → Location → ℚ) (rows : List ShelterRow)
    (request : EvacuationRequest) : List ShelterCandidate :=
  rows.filterMap fun shelter =>
    let d := dist request.start_point shelter.geometry
    if d > request.disaster_radius then
      some { id := shelter.id
             location := shelter.geometry
             distance_km := d
             capacity := shelter.capacity }
    else none

/-- The `/evacuation` endpoint `get_evacuation_route` (BACKEND.py:146-172):
filter, stable-sort by `(distance_km, -capacity)`, fail with 404 when nothing
survives, else return head as recommendation and the next three
(`shelters[1:4]`) as alternatives, echoing the request's disaster type. -/
def get_evacuation_route (dist : Location → Location → ℚ) (models : DisasterModels)
    (request : EvacuationRequest) : Except String EvacuationPlan :=
  match (surviving_shelters dist models.shelters request).mergeSort shelterSortKeyLe with
  | [] => .error "No safe shelters found within parameters"
  | first :: rest =>
      .ok { recommended_shelter := first
            alternative_shelters := rest.take 3
            disaster_type := request.disaster_type }

/-! ### Helper lemmas -/

/-- The shelter sort order is transitive. -/
theorem shelterSortKeyLe_trans (a b c : ShelterCandidate)
    (hab : shelterSortKeyLe a b) (hbc : shelterSortKeyLe b c) :
    shelterSortKeyLe a c := by
  simp only [shelterSortKeyLe, decide_eq_true_eq] at *
  rcases hab with h₁ | ⟨h₁, h₂⟩ <;> rcases hbc with h₃ | ⟨h₃, h₄⟩
  · exact Or.inl (h₁.trans h₃)
  · exact Or.inl (h₃ ▸ h₁)
  · exact Or.inl (h₁ ▸ h₃)
  · exact Or.inr ⟨h₁.trans h₃, h₂.trans h₄⟩

/-- The shelter sort order is total. -/
theorem shelterSortKeyLe_total (a b : ShelterCandidate) :
    shelterSortKeyLe a b || shelterSortKeyLe b a := by
  simp only [shelterSortKeyLe, Bool.or_eq_true, decide_eq_true_eq]
  rcases lt_trichotomy a.distance_km b.distance_km with h | h | h
  · exact Or.inl (Or.inl h)
  · rcases le_total (-a.capacity) (-b.capacity) with h' | h'
    · exact Or.inl (Or.inr ⟨h, h'⟩)
    · exact Or.inr (Or.inr ⟨h.symm, h'⟩)
  · exact Or.inr (Or.inl h)

/-- Every candidate produced by the filtering loop records the distance the
loop computed for it, and that distance strictly exceeds the radius. -/
theorem mem_surviving_shelters {dist : Location → Location → ℚ}
    {rows : List ShelterRow} {request : EvacuationRequest}
    {c : ShelterCandidate} (h : c ∈ surviving_shelters dist rows request) :
    c.distance_km = dist request.start_point c.location ∧
      c.distance_km > request.disaster_radius := by
  simp only [surviving_shelters, List.mem_filterMap] at h
  obtain ⟨row, -, hrow⟩ := h
  by_cases hd : dist request.start_point row.geometry > request.disaster_radius
  · simp only [hd, if_pos, Option.some.injEq] at hrow
    subst hrow
    exact ⟨rfl, hd⟩
  · simp [hd] at hrow

/-- Every shelter in a successful plan is a member of the sorted survivor
list. -/
theorem plan_mem_sorted {dist : Location → Location → ℚ}
    {models : DisasterModels} {request : EvacuationRequest}
    {plan : EvacuationPlan}
    (h : get_evacuation_route dist models request = .ok plan)
    {c : ShelterCandidate}
    (hc : c ∈ plan.recommended_shelter :: plan.alternative_shelters) :
    c ∈ surviving_shelters dist models.shelters request := by
  rw [get_evacuation_route] at h
  rcases hs : (surviving_shelters dist models.shelters request).mergeSort shelterSortKeyLe
    with - | ⟨first, rest⟩
  · rw [hs] at h; exact absurd h (by simp)
  · rw [hs] at h
    simp only [Except.ok.injEq] at h
    subst h
    have hmem : c ∈ first :: rest := by
      simp only [List.mem_cons] at hc
      rcases hc with rfl | hc
      · exact List.mem_cons_self _ _
      · exact List.mem_cons_of_mem _ (List.mem_of_mem_take hc)
    have := hs ▸ hmem
    exact List.mem_mergeSort.mp this

/-- A merge sort result is empty exactly when its input is. -/
theorem mergeSort_eq_nil_iff {α : Type} {le : α → α → Bool} {l : List α} :
    l.mergeSort le = [] ↔ l = [] := by
  constructor
  · intro h
    have h1 := congrArg List.length h
    simp only [List.length_mergeSort, List.length_nil] at h1
    exact List.eq_nil_of_length_eq_zero h1
  · intro h
    subst h
    exact List.mergeSort_nil

/-! ### Claim theorems -/

/-- **C3.** For every `EvacuationRequest`, every shelter in the returned
`EvacuationPlan` — the recommended shelter and each alternate — has
great-circle distance from the start point strictly greater than the requested
disaster radius; in particular a shelter exactly on the radius boundary never
appears in a plan. -/
theorem plan_shelters_strictly_beyond_radius
    (dist : Location → Location → ℚ) (models : DisasterModels)
    (request : EvacuationRequest) (plan : EvacuationPlan)
    (h : get_evacuation_route dist models request = .ok plan) :
    ∀ c ∈ plan.recommended_shelter :: plan.alternative_shelters,
      dist request.start_point c.location > request.disaster_radius := by
  intro c hc
  have hm := plan_mem_sorted h hc
  have hsurv := mem_surviving_shelters hm
  exact hsurv.1 ▸ hsurv.2

/-- **C5.** The planner fails — with the 404 "No safe shelters found within
parameters" detail — exactly when zero shelters pass the strict radius filter;
the error branch carries no recommendation, by the shape of the result type. -/
theorem no_safe_shelter_iff_empty_filter
    (dist : Location → Location → ℚ) (models : DisasterModels)
    (request : EvacuationRequest) :
    get_evacuation_route dist models request
        = .error "No safe shelters found within parameters"
      ↔ surviving_shelters dist models.shelters request = [] := by
  rw [get_evacuation_route]
  rcases hs : (surviving_shelters dist models.shelters request).mergeSort shelterSortKeyLe
    with - | ⟨first, rest⟩
  · simp only [true_iff]
    exact mergeSort_eq_nil_iff.mp hs
  · constructor
    · intro h
      exact absurd h (by simp)
    · intro h
      rw [h, List.mergeSort_nil] at hs
      simp at hs

/-! ### Concrete fixtures used by the witnesses -/

/-- A concrete stand-in for the great-circle metric: taxicab distance on
coordinates (the planner treats the metric as a black box). -/
def demoDist : Location → Location → ℚ :=
  fun a b => |a.lat - b.lat| + |a.lon - b.lon|

/-- A concrete model/data container with a single shelter 10 units from the
origin. -/
def demoModels : DisasterModels where
  earthquake_model := fun rows => rows.map fun _ => (1 : ℚ) / 2
  flood_model := fun _ _ _ => (1 : ℚ) / 2
  regions := []
  shelters := [{ id := 1, geometry := { lat := 10, lon := 0 }, capacity := 50 }]

/-- An evacuation request from the origin with disaster radius 3. -/
def demoRequest : EvacuationRequest :=
  { start_point := { lat := 0, lon := 0 }, disaster_type := "flood",
    disaster_radius := 3 }

/-- The candidate the demo planner run produces for the single demo shelter. -/
def demoCand : ShelterCandidate :=
  { id := 1, location := { lat := 10, lon := 0 }, distance_km := 10,
    capacity := 50 }

/-- The plan returned for `demoRequest` over `demoModels`. -/
def demoPlan : EvacuationPlan :=
  { recommended_shelter := demoCand, alternative_shelters := [],
    disaster_type := "flood" }

/-- Concrete evaluation of the planner on the demo fixture. -/
theorem demo_route_eval :
    get_evacuation_route demoDist demoModels demoRequest = .ok demoPlan := by
  have h1 : surviving_shelters demoDist demoModels.shelters demoRequest
      = [demoCand] := by
    simp only [surviving_shelters, demoModels, demoRequest, demoDist, demoCand,
      List.filterMap_cons, List.filterMap_nil]
    norm_num
  rw [get_evacuation_route, h1, List.mergeSort_singleton]
  rfl

/-- Witness for C3: the demo plan's recommended shelter indeed lies strictly
beyond the demo radius. -/
theorem plan_shelters_strictly_beyond_radius_witness :
    demoDist demoRequest.start_point demoCand.location
      > demoRequest.disaster_radius :=
  plan_shelters_strictly_beyond_radius demoDist demoModels demoRequest demoPlan
    demo_route_eval demoCand (List.mem_cons_self _ _)

/-- Spec-side ranking order, written from the spec's words for the ranking
claim (§4.5 step 3): "ascending distance primary, descending capacity
secondary (closer wins; among equal distances, larger capacity wins)". -/
def specRankOrder (a b : ShelterCandidate) : Prop :=
  a.distance_km < b.distance_km ∨
    (a.distance_km = b.distance_km ∧ b.capacity ≤ a.capacity)

/-- The code's sort key `(distance_km, -capacity)` realises exactly the spec's
ranking order. -/
theorem shelterSortKeyLe_iff (a b : ShelterCandidate) :
    shelterSortKeyLe a b = true ↔ specRankOrder a b := by
  simp [shelterSortKeyLe, specRankOrder]

/-- **C4.** For every request that yields a plan, the plan's shelter sequence
(recommended first, then the alternates) is the first four elements of a
ranking of the surviving shelters that (a) is a permutation of the survivors,
(b) is sorted by ascending distance with descending capacity as tie-break, and
(c) is stable: any spec-ordered sublist of the survivors — in particular any
run of key-ties in input order — survives as a sublist of the ranking. -/
theorem evacuation_ranking_follows_spec
    (dist : Location → Location → ℚ) (models : DisasterModels)
    (request : EvacuationRequest) (plan : EvacuationPlan)
    (h : get_evacuation_route dist models request = .ok plan) :
    plan.recommended_shelter :: plan.alternative_shelters
        = ((surviving_shelters dist models.shelters request).mergeSort
            shelterSortKeyLe).take 4
      ∧ List.Perm
          ((surviving_shelters dist models.shelters request).mergeSort
            shelterSortKeyLe)
          (surviving_shelters dist models.shelters request)
      ∧ ((surviving_shelters dist models.shelters request).mergeSort
          shelterSortKeyLe).Pairwise specRankOrder
      ∧ ∀ ties : List ShelterCandidate,
          List.Sublist ties (surviving_shelters dist models.shelters request) →
          ties.Pairwise specRankOrder →
          List.Sublist ties
            ((surviving_shelters dist models.shelters request).mergeSort
              shelterSortKeyLe) := by
  refine ⟨?_, List.mergeSort_perm _ _, ?_, ?_⟩
  · rw [get_evacuation_route] at h
    rcases hs : (surviving_shelters dist models.shelters request).mergeSort
        shelterSortKeyLe with - | ⟨first, rest⟩ <;> rw [hs] at h
    · exact absurd h (by simp)
    · simp only [Except.ok.injEq] at h
      subst h
      simp [List.take_succ_cons]
  · exact (List.sorted_mergeSort shelterSortKeyLe_trans shelterSortKeyLe_total
      _).imp fun hab => (shelterSortKeyLe_iff _ _).mp hab
  · intro ties hsub hpw
    exact List.sublist_mergeSort shelterSortKeyLe_trans shelterSortKeyLe_total
      (hpw.imp fun hab => (shelterSortKeyLe_iff _ _).mpr hab) hsub

/-- A second concrete metric stand-in, kept free of `abs` so that the kernel
can evaluate it. -/
def demoDist2 : Location → Location → ℚ :=
  fun a b => (b.lat - a.lat) + (b.lon - a.lon)

/-- Fixture exercising the tie-break: two shelters 10 units away with
capacities 80 and 50, and one unsafe shelter inside the radius. -/
def demoModels2 : DisasterModels where
  earthquake_model := fun rows => rows.map fun _ => (1 : ℚ) / 2
  flood_model := fun _ _ _ => (1 : ℚ) / 2
  regions := []
  shelters :=
    [{ id := 2, geometry := { lat := 10, lon := 0 }, capacity := 80 },
     { id := 1, geometry := { lat := 5, lon := 5 }, capacity := 50 },
     { id := 3, geometry := { lat := 1, lon := 0 }, capacity := 5 }]

/-- An evacuation request from the origin with radius 3 over `demoModels2`. -/
def demoRequest2 : EvacuationRequest :=
  { start_point := { lat := 0, lon := 0 }, disaster_type := "earthquake",
    disaster_radius := 3 }

/-- The surviving candidate with capacity 80 in the second fixture. -/
def candB2 : ShelterCandidate :=
  { id := 2, location := { lat := 10, lon := 0 }, distance_km := 10,
    capacity := 80 }

/-- The surviving candidate with capacity 50 in the second fixture. -/
def candA2 : ShelterCandidate :=
  { id := 1, location := { lat := 5, lon := 5 }, distance_km := 10,
    capacity := 50 }

/-- The plan returned for `demoRequest2` over `demoModels2`: the 80-capacity
shelter wins the distance tie. -/
def demoPlan2 : EvacuationPlan :=
  { recommended_shelter := candB2, alternative_shelters := [candA2],
    disaster_type := "earthquake" }

/-- Concrete evaluation of the planner on the second fixture. -/
theorem demo_route_eval2 :
    get_evacuation_route demoDist2 demoModels2 demoRequest2 = .ok demoPlan2 := by
  have h1 : surviving_shelters demoDist2 demoModels2.shelters demoRequest2
      = [candB2, candA2] := by
    simp only [surviving_shelters, demoModels2, demoRequest2, demoDist2,
      candB2, candA2, List.filterMap_cons, List.filterMap_nil]
    norm_num
  have h2 : [candB2, candA2].mergeSort shelterSortKeyLe = [candB2, candA2] :=
    List.mergeSort_of_sorted (by
      norm_num [List.pairwise_cons, shelterSortKeyLe, candB2, candA2])
  rw [get_evacuation_route, h1, h2]
  rfl

/-- Witness for C4 at the second fixture. -/
theorem evacuation_ranking_follows_spec_witness :
    demoPlan2.recommended_shelter :: demoPlan2.alternative_shelters
        = ((surviving_shelters demoDist2 demoModels2.shelters demoRequest2).mergeSort
            shelterSortKeyLe).take 4
      ∧ List.Perm
          ((surviving_shelters demoDist2 demoModels2.shelters demoRequest2).mergeSort
            shelterSortKeyLe)
          (surviving_shelters demoDist2 demoModels2.shelters demoRequest2)
      ∧ ((surviving_shelters demoDist2 demoModels2.shelters demoRequest2).mergeSort
          shelterSortKeyLe).Pairwise specRankOrder
      ∧ ∀ ties : List ShelterCandidate,
          List.Sublist ties
            (surviving_shelters demoDist2 demoModels2.shelters demoRequest2) →
          ties.Pairwise specRankOrder →
          List.Sublist ties
            ((surviving_shelters demoDist2 demoModels2.shelters demoRequest2).mergeSort
              shelterSortKeyLe) :=
  evacuation_ranking_follows_spec demoDist2 demoModels2 demoRequest2 demoPlan2
    demo_route_eval2

/-- A constant stand-in for the `np.random.uniform` entropy stream. -/
def demoEntropy : ℕ → ℚ × ℚ := fun _ => (5, 50)

/-- **C6.** A flood prediction for a point contained in no region polygon
succeeds — no error is raised — and its risk is exactly 0.0
(`predict_flood` returns `0.0` when the containment mask selects no row). -/
theorem flood_no_region_zero
    (models : DisasterModels) (entropy : ℕ → ℚ × ℚ) (now : ℕ)
    (request : PredictionRequest)
    (hty : request.disaster_type = "flood")
    (hout : ∀ r ∈ models.regions, r.containsPoint request.location = false) :
    predict_disaster models entropy now request
      = .ok (.scalar "flood" 0 "probability") := by
  have hfilter : models.regions.filter
      (fun r => r.containsPoint request.location) = [] := by
    rw [List.filter_eq_nil_iff]
    intro r hr
    simp [hout r hr]
  simp [predict_disaster, hty, predict_flood, hfilter]

/-- A fixture whose single region contains no point at all. -/
def demoModels3 : DisasterModels where
  earthquake_model := fun rows => rows.map fun _ => (1 : ℚ) / 2
  flood_model := fun _ _ _ => (3 : ℚ) / 4
  regions := [{ containsPoint := fun _ => false, elevation := 12,
                river_dist := 3, soil_moisture := 9 }]
  shelters := []

/-- A flood prediction request at the origin. -/
def demoFloodRequest : PredictionRequest :=
  { location := { lat := 0, lon := 0 }, disaster_type := "flood",
    time_window := 7 }

/-- Witness for C6: over `demoModels3` the flood risk at the origin is 0.0. -/
theorem flood_no_region_zero_witness :
    predict_disaster demoModels3 demoEntropy 0 demoFloodRequest
      = .ok (.scalar "flood" 0 "probability") :=
  flood_no_region_zero demoModels3 demoEntropy 0 demoFloodRequest rfl
    (by intro r hr; simp [demoModels3] at hr; simp [hr])

/-- **C7.** For an earthquake request with time window `N ≥ 1`, assuming only
the time-series model contract (`model.predict` emits one value per input
feature row), the returned risk mapping has exactly `N` entries, keyed by the
`N` consecutive days starting today, in ascending date order. -/
theorem earthquake_series_one_entry_per_day
    (models : DisasterModels) (entropy : ℕ → ℚ × ℚ) (now : ℕ)
    (request : PredictionRequest) (risks : List (ℕ × ℚ)) (N : ℕ)
    (hN : 1 ≤ N) (htw : request.time_window = N)
    (hty : request.disaster_type = "earthquake")
    (hmodel : ∀ rows, (models.earthquake_model rows).length = rows.length)
    (h : predict_disaster models entropy now request
        = .ok (.timeSeries "earthquake" risks "probability")) :
    risks.length = N
      ∧ risks.map Prod.fst = (List.range N).map (fun i => now + i)
      ∧ List.Pairwise (· < ·) (risks.map Prod.fst) := by
  simp only [predict_disaster, hty, if_true, htw, Int.toNat_natCast,
    reduceIte, Except.ok.injEq, RiskResult.timeSeries.injEq, true_and,
    and_true] at h
  have hdates : ((List.range N).map (fun i => now + i)).length = N := by simp
  have hlen : (predict_earthquake models entropy request.location
      ((List.range N).map (fun i => now + i))).length = N := by
    rw [predict_earthquake, hmodel, prepare_earthquake_features]
    simp
  have hfst : risks.map Prod.fst = (List.range N).map (fun i => now + i) := by
    rw [← h]
    exact List.map_fst_zip _ _ (by rw [hdates, hlen])
  refine ⟨?_, hfst, ?_⟩
  · rw [← h, List.length_zip, hdates, hlen, Nat.min_self]
  · rw [hfst]
    exact (List.pairwise_lt_range N).map _ (by intro a b hab; omega)

/-- An earthquake prediction request at the origin with a two-day window. -/
def demoQuakeRequest : PredictionRequest :=
  { location := { lat := 0, lon := 0 }, disaster_type := "earthquake",
    time_window := 2 }

/-- Witness for C7 at a concrete two-day earthquake request. -/
theorem earthquake_series_one_entry_per_day_witness :
    ([((0 : ℕ), (1 : ℚ) / 2), (1, 1 / 2)] : List (ℕ × ℚ)).length = 2
      ∧ ([((0 : ℕ), (1 : ℚ) / 2), (1, 1 / 2)] : List (ℕ × ℚ)).map Prod.fst
          = (List.range 2).map (fun i => 0 + i)
      ∧ List.Pairwise (· < ·)
          (([((0 : ℕ), (1 : ℚ) / 2), (1, 1 / 2)] : List (ℕ × ℚ)).map Prod.fst) :=
  earthquake_series_one_entry_per_day demoModels3 demoEntropy 0 demoQuakeRequest
    [(0, 1 / 2), (1, 1 / 2)] 2 (by decide) rfl rfl
    (fun rows => by simp [demoModels3]) rfl

/-- **C9.** The dispatcher never rejects a non-positive time window: for an
earthquake request with `time_window ≤ 0` the date sequence is empty and the
response carries an empty risk mapping, with no error. -/
theorem earthquake_nonpositive_window_empty
    (models : DisasterModels) (entropy : ℕ → ℚ × ℚ) (now : ℕ)
    (request : PredictionRequest)
    (hty : request.disaster_type = "earthquake")
    (htw : request.time_window ≤ 0) :
    predict_disaster models entropy now request
      = .ok (.timeSeries "earthquake" [] "probability") := by
  have h0 : request.time_window.toNat = 0 := Int.toNat_of_nonpos htw
  simp [predict_disaster, hty, h0]

/-- An earthquake request with a zero-day window. -/
def demoZeroRequest : PredictionRequest :=
  { location := { lat := 0, lon := 0 }, disaster_type := "earthquake",
    time_window := 0 }

/-- Witness for C9 at a concrete zero-window request. -/
theorem earthquake_nonpositive_window_empty_witness :
    predict_disaster demoModels3 demoEntropy 0 demoZeroRequest
      = .ok (.timeSeries "earthquake" [] "probability") :=
  earthquake_nonpositive_window_empty demoModels3 demoEntropy 0 demoZeroRequest
    rfl (by decide)

/-- **C8.** The evacuation planner is deterministic in its inputs: its result
is a function of the metric, the shelter dataset and the request alone (the
embedding is manifestly entropy-free, unlike the earthquake feature builder),
so two identical requests over the same data yield identical plans. -/
theorem evacuation_route_deterministic
    (dist : Location → Location → ℚ) (models : DisasterModels)
    (r₁ r₂ : EvacuationRequest) (h : r₁ = r₂) :
    get_evacuation_route dist models r₁ = get_evacuation_route dist models r₂ :=
  congrArg (get_evacuation_route dist models) h

/-- Witness for C8: repeating the demo request reproduces the same result. -/
theorem evacuation_route_deterministic_witness :
    get_evacuation_route demoDist demoModels demoRequest
      = get_evacuation_route demoDist demoModels demoRequest :=
  evacuation_route_deterministic demoDist demoModels demoRequest demoRequest rfl

/-- **C10.** The planner's shelter choice ignores the disaster-type tag: two
requests identical but for `disaster_type` produce the same recommendation and
alternates (and the same failure, if any), and the tag is only echoed back
unchanged in a successful plan. -/
theorem evacuation_independent_of_tag
    (dist : Location → Location → ℚ) (models : DisasterModels)
    (r₁ r₂ : EvacuationRequest)
    (hstart : r₁.start_point = r₂.start_point)
    (hrad : r₁.disaster_radius = r₂.disaster_radius) :
    (get_evacuation_route dist models r₁).map
        (fun p => (p.recommended_shelter, p.alternative_shelters))
      = (get_evacuation_route dist models r₂).map
        (fun p => (p.recommended_shelter, p.alternative_shelters))
      ∧ ∀ plan, get_evacuation_route dist models r₁ = .ok plan →
          plan.disaster_type = r₁.disaster_type := by
  have hsurv : surviving_shelters dist models.shelters r₁
      = surviving_shelters dist models.shelters r₂ := by
    simp only [surviving_shelters, hstart, hrad]
  constructor
  · rw [get_evacuation_route, get_evacuation_route, hsurv]
    rcases (surviving_shelters dist models.shelters r₂).mergeSort shelterSortKeyLe
      with - | ⟨first, rest⟩ <;> rfl
  · intro plan hp
    rw [get_evacuation_route] at hp
    rcases hs : (surviving_shelters dist models.shelters r₁).mergeSort
        shelterSortKeyLe with - | ⟨first, rest⟩ <;> rw [hs] at hp
    · exact absurd hp (by simp)
    · simp only [Except.ok.injEq] at hp
      subst hp
      rfl

/-- The demo request with a different disaster-type tag. -/
def demoRequestTag : EvacuationRequest :=
  { start_point := { lat := 0, lon := 0 }, disaster_type := "wildfire",
    disaster_radius := 3 }

/-- Witness for C10: retagging the demo request changes nothing but the echoed
tag. -/
theorem evacuation_independent_of_tag_witness :
    (get_evacuation_route demoDist demoModels demoRequest).map
        (fun p => (p.recommended_shelter, p.alternative_shelters))
      = (get_evacuation_route demoDist demoModels demoRequestTag).map
        (fun p => (p.recommended_shelter, p.alternative_shelters))
      ∧ ∀ plan, get_evacuation_route demoDist demoModels demoRequest = .ok plan →
          plan.disaster_type = demoRequest.disaster_type :=
  evacuation_independent_of_tag demoDist demoModels demoRequest demoRequestTag
    rfl rfl

/-- **C1** (refutation witness for the four-type contract): the dispatcher
rejects the in-enumeration tag "wildfire" with the unsupported-disaster-type
error instead of returning probabilities, even though the model container
loads a wildfire model — the `/predict` endpoint only implements the
earthquake and flood branches. -/
theorem predict_rejects_wildfire :
    predict_disaster demoModels demoEntropy 0
      { location := { lat := 0, lon := 0 }, disaster_type := "wildfire",
        time_window := 7 }
      = .error "Disaster type not supported" := by
  simp [predict_disaster]

/-- **C2** (refutation witness for the "fails iff outside the enumeration"
contract): "hurricane" is inside the fixed four-type enumeration, yet the
dispatcher fails with the unsupported-disaster-type error, so the failure
condition is not equivalent to the tag being outside the enumeration. -/
theorem predict_rejects_hurricane :
    predict_disaster demoModels demoEntropy 0
      { location := { lat := 0, lon := 0 }, disaster_type := "hurricane",
        time_window := 7 }
      = .error "Disaster type not supported" := by
  simp [predict_disaster]
